import Mathlib

/-!
Verification of the core of the `usda-data-proxy-server` Cloudflare worker:
the router (`src/index.ts`), the shared utilities `cors`, `json`, `rateGate`
(`src/utils.ts`), the USDA handler (`src/usda.ts`) and the Open Food Facts
handler (`src/off.ts`).

The embedding is shallow: JavaScript values flowing through the JSON
pipeline are modelled by the inductive `JVal`; the external key-value
counter store is modelled as an association list of entries with absolute
expiry times; the HTTP transport used to reach an upstream API is an
oracle parameter (`Upstream`) giving the outcome of the single upstream
fetch a request can perform.  Platform string builtins (`String(n)`,
`parseInt`, `String.prototype.replace` with a string pattern) are modelled
by executable Lean functions with the same behaviour on the values the
program feeds them.
-/

/-- A JSON-compatible JavaScript value.  `jnull` stands for JSON `null`. -/
inductive JVal : Type where
  | jnull : JVal
  | jbool : Bool → JVal
  | jnum : Int → JVal
  | jstr : String → JVal
  | jarr : List JVal → JVal
  | jobj : List (String × JVal) → JVal

/-- First-match lookup in an object's field list (JS property access on
an object; field lists built by this development have distinct keys). -/
def jlook : List (String × JVal) → String → Option JVal
  | [], _ => none
  | (k, v) :: rest, key => if k = key then some v else jlook rest key

/-- JS property access `x.name` for a non-null, non-undefined value `x`:
objects look the name up, other values yield `undefined` (`none`) for the
property names this program reads. -/
def member : JVal → String → Option JVal
  | .jobj fs, key => jlook fs key
  | _, _ => none

/-- JS truthiness of a defined value. -/
def truthyV : JVal → Bool
  | .jnull => false
  | .jbool b => b
  | .jnum n => n != 0
  | .jstr s => s ≠ ""
  | .jarr _ => true
  | .jobj _ => true

/-- JS truthiness of a possibly-`undefined` value. -/
def truthyO : Option JVal → Bool
  | none => false
  | some v => truthyV v

/-- JS `a || b` on possibly-`undefined` operands. -/
def jsOrO (a b : Option JVal) : Option JVal :=
  if truthyO a then a else b

/-! String builtins (`startsWith`, `split`, `replace`, `includes`,
`toLowerCase`) are modelled over character lists so that every
definition evaluates inside the kernel. -/

/-- Test that `pre` is an initial run of `s`. -/
def isPreL : List Char → List Char → Bool
  | [], _ => true
  | _ :: _, [] => false
  | c :: cs, d :: ds => c = d && isPreL cs ds

/-- JS `s.startsWith(pre)`. -/
def strStarts (s pre : String) : Bool := isPreL pre.toList s.toList

/-- JS `s.split(sep)` for a one-character separator (the only separator
this program uses). -/
def splitOnChar (sep : Char) : List Char → List (List Char)
  | [] => [[]]
  | c :: cs =>
      if c = sep then [] :: splitOnChar sep cs
      else
        match splitOnChar sep cs with
        | [] => [[c]]
        | p :: ps => (c :: p) :: ps

/-- Model of `url.pathname.split("/")`. -/
def pathSegments (path : String) : List String :=
  (splitOnChar '/' path.toList).map String.mk

/-- ASCII lower-casing of one character. -/
def charLower (c : Char) : Char :=
  if 65 ≤ c.toNat && c.toNat ≤ 90 then Char.ofNat (c.toNat + 32) else c

/-- ASCII `s.toLowerCase()` (header names are ASCII tokens). -/
def strLower (s : String) : String := String.mk (s.toList.map charLower)

/-- The decimal digit character for `d < 10`. -/
def digitChar10 (d : Nat) : Char := Char.ofNat (48 + d)

/-- Big-endian decimal digit characters of a natural number
(`String(n)` for a non-negative integer). -/
def natToDecChars (n : Nat) : List Char :=
  if n < 10 then [digitChar10 n]
  else natToDecChars (n / 10) ++ [digitChar10 (n % 10)]
decreasing_by exact Nat.div_lt_self (by omega) (by omega)

/-- Model of `String(n)` for a natural number. -/
def natToDec (n : Nat) : String := String.mk (natToDecChars n)

/-- Model of `String(i)` for an integer. -/
def intToDec (i : Int) : String :=
  if i < 0 then "-" ++ natToDec i.natAbs else natToDec i.natAbs

/-- JS string conversion (template-literal interpolation).  Array
elements that are `null` are rendered empty inside the comma join, as
`Array.prototype.toString` does. -/
def jsToStrV : JVal → String
  | .jnull => "null"
  | .jbool b => cond b "true" "false"
  | .jnum n => intToDec n
  | .jstr s => s
  | .jarr xs => jsJoinList xs
  | .jobj _ => "[object Object]"
where
  jsJoinList : List JVal → String
    | [] => ""
    | [.jnull] => ""
    | [v] => jsToStrV v
    | .jnull :: rest => "," ++ jsJoinList rest
    | v :: rest => jsToStrV v ++ "," ++ jsJoinList rest

/-- JS string conversion of a possibly-`undefined` value. -/
def jsToStrO : Option JVal → String
  | none => "undefined"
  | some v => jsToStrV v

/-- The own enumerable entries contributed by `...x` in an object
literal: objects give their fields, arrays and strings their indexed
elements, other primitives nothing. -/
def spreadFields : JVal → List (String × JVal)
  | .jobj fs => fs
  | .jarr xs => (List.zip (List.range xs.length) xs).map
      (fun p => (natToDec p.1, p.2))
  | .jstr s => (List.zip (List.range s.toList.length) s.toList).map
      (fun p => (natToDec p.1, .jstr (String.mk [p.2])))
  | _ => []

/-- Assignment of a field in an object literal: an existing key keeps its
position and takes the new value, a new key is appended (JS objects have
distinct keys, so replacing the first occurrence is exact). -/
def setField : List (String × JVal) → String → JVal → List (String × JVal)
  | [], k, v => [(k, v)]
  | e :: rest, k, v =>
      if e.1 = k then (k, v) :: rest else e :: setField rest k v

/-- Model of `String.prototype.replace` with a string pattern, over character
lists: replace the first occurrence only. -/
def replaceFirstL (pat repl : List Char) : List Char → List Char
  | [] => if isPreL pat [] then repl else []
  | c :: cs =>
      if isPreL pat (c :: cs) then repl ++ (c :: cs).drop pat.length
      else c :: replaceFirstL pat repl cs

/-- Model of `String.prototype.replace` with a string pattern: replace the first
occurrence only. -/
def replaceFirst (s pat repl : String) : String :=
  String.mk (replaceFirstL pat.toList repl.toList s.toList)

/-- Occurrence test over character lists. -/
def containsL (pat : List Char) : List Char → Bool
  | [] => isPreL pat []
  | c :: cs => isPreL pat (c :: cs) || containsL pat cs

/-- Substring test (used only to state error-message claims),
JS `s.includes(pat)`. -/
def containsSub (s pat : String) : Bool :=
  containsL pat.toList s.toList

/-! ## Decimal numerals and `parseInt`

The rate gate stores counters as decimal strings (`String(hits + 1)`)
and reads them back with `parseInt`. -/

/-- Value of a big-endian run of decimal digit characters. -/
def decValue (cs : List Char) : Nat :=
  cs.foldl (fun n c => 10 * n + (c.toNat - 48)) 0

/-- Leading-digit-run parse: `none` when the run is empty (JS `NaN`). -/
def parseDigits (cs : List Char) : Option Nat :=
  let ds := cs.takeWhile Char.isDigit
  if ds.isEmpty then none else some (decValue ds)

/-- Character-list form of `parseInt`: an optional sign followed by a
leading run of decimal digits; `none` models `NaN`. -/
def parseIntChars : List Char → Option Int
  | '-' :: rest => (parseDigits rest).map (fun n => -(n : Int))
  | '+' :: rest => (parseDigits rest).map (fun n => (n : Int))
  | cs => (parseDigits cs).map (fun n => (n : Int))

/-- JS `parseInt(s)` on the strings this program stores. -/
def parseIntJS (s : String) : Option Int := parseIntChars s.toList

/-! ## The external counter store

An entry is `(key, value, expiresAt)` with an absolute expiry instant in
seconds; a read at instant `now` sees the entry iff `now < expiresAt`
(the platform's `expirationTtl` makes the entry vanish once the TTL has
elapsed). -/

/-- The counter store: an association list of live-or-expired entries. -/
abbrev KV : Type := List (String × String × Nat)

/-- First entry for a key, with its expiry. -/
def kvFind : KV → String → Option (String × Nat)
  | [], _ => none
  | (k, v, e) :: rest, key => if k = key then some (v, e) else kvFind rest key

/-- Store read (`get`) at instant `now`: `none` for a missing or expired entry. -/
def kvGet (kv : KV) (now : Nat) (key : String) : Option String :=
  match kvFind kv key with
  | some (v, e) => if now < e then some v else none
  | none => none

/-- Remove all entries for a key. -/
def kvRemove (kv : KV) (key : String) : KV :=
  kv.filter (fun e => e.1 ≠ key)

/-- Store write (`put`) with `expirationTtl`: the new value expires `ttl` seconds from
`now` and replaces any previous entry for the key. -/
def kvPut (kv : KV) (now : Nat) (key v : String) (ttl : Nat) : KV :=
  (key, v, now + ttl) :: kvRemove kv key

/-! ## Requests, responses, headers -/

/-- An inbound request: method, URL pathname, URL search parameters (in
order), and headers. -/
structure Request : Type where
  method : String
  urlPath : String
  urlQuery : List (String × String)
  headers : List (String × String)

/-- Model of `url.searchParams.get(name)`: first value for the name, else null. -/
def searchParamGet : List (String × String) → String → Option String
  | [], _ => none
  | (k, v) :: rest, name => if k = name then some v else searchParamGet rest name

/-- Model of `req.headers.get(name)` (header names are case-insensitive). -/
def headerGet (hs : List (String × String)) (name : String) : Option String :=
  match hs with
  | [] => none
  | (k, v) :: rest =>
      if strLower k = strLower name then some v else headerGet rest name

/-- Truthiness of a nullable string (`null` and `""` are falsy). -/
def truthyStr : Option String → Bool
  | none => false
  | some s => s ≠ ""

/-- A response body: empty, a plain string, a JSON-serialized value
(`JSON.stringify`), or a streamed upstream body. -/
inductive Body : Type where
  | empty : Body
  | text : String → Body
  | jsonOf : JVal → Body
  | stream : JVal → Body

/-- A response: status, headers (in construction order), body. -/
structure Response : Type where
  status : Nat
  headers : List (String × String)
  body : Body

/-- Header-object construction: a later key in an object literal
overwrites an earlier one in place (header literals in this program have
distinct names, so replacing the first occurrence is exact). -/
def setHeader : List (String × String) → String × String → List (String × String)
  | [], kv => [kv]
  | e :: rest, kv =>
      if e.1 = kv.1 then kv :: rest else e :: setHeader rest kv

/-- The headers denoted by a header object literal. -/
def hmerge (pairs : List (String × String)) : List (String × String) :=
  pairs.foldl setHeader []

/-! ## `src/utils.ts` -/

/-- The three CORS headers `cors` always attaches. -/
def corsHeaders : List (String × String) :=
  [("Access-Control-Allow-Origin", "*"),
   ("Access-Control-Allow-Methods", "GET, HEAD, POST, OPTIONS"),
   ("Access-Control-Allow-Headers", "Content-Type, Authorization")]

/-- The `cors(body?)` responder: status 200 for a truthy body, 204 otherwise, with the
three CORS headers. -/
def cors (body : Option String) : Response :=
  { status := if truthyStr body then 200 else 204,
    headers := hmerge corsHeaders,
    body := match body with
            | none => .empty
            | some s => .text s }

/-- The `json(x, status, extra)` envelope: `JSON.stringify(x)` with a
`Content-Type: application/json` header merged with `extra`. -/
def json (x : JVal) (status : Nat) (extra : List (String × String)) :
    Response :=
  { status := status,
    headers := hmerge (("Content-Type", "application/json") :: extra),
    body := .jsonOf x }

/-- The result of `rateGate`. -/
structure GateResult : Type where
  allowed : Bool
  retryAfter : Nat

/-- The caller identity: the trusted forwarded-IP header, with the
sentinel `"0.0.0.0"` when absent. -/
def clientIp (hs : List (String × String)) : String :=
  (headerGet hs "CF-Connecting-IP").getD "0.0.0.0"

/-- The store key for an identity. -/
def rlKey (hs : List (String × String)) : String := "rl:" ++ clientIp hs

/-- The gate `rateGate(req, env, limit, windowSec)` at instant `now`.  The store
binding is `none` when no counter store is configured; the (possibly
updated) store is threaded through the result.  `parseInt` yielding `NaN`
(never the case for values this gate writes) admits the request and
stores `String(NaN + 1) = "NaN"`. -/
def rateGate (reqHeaders : List (String × String)) (rate : Option KV)
    (limit windowSec now : Nat) : GateResult × Option KV :=
  match rate with
  | none => ({ allowed := true, retryAfter := 0 }, none)
  | some kv =>
    let key := rlKey reqHeaders
    match parseIntJS ((kvGet kv now key).getD "0") with
    | none =>
        ({ allowed := true, retryAfter := 0 },
         some (kvPut kv now key "NaN" windowSec))
    | some hits =>
        if hits ≥ (limit : Int) then
          ({ allowed := false, retryAfter := windowSec }, some kv)
        else
          ({ allowed := true, retryAfter := 0 },
           some (kvPut kv now key (intToDec (hits + 1)) windowSec))

/-- The stored hit count a gate call would observe:
`parseInt((await env.RATE.get(key)) ?? "0")`. -/
def storedHits (kv : KV) (now : Nat) (key : String) : Option Int :=
  parseIntJS ((kvGet kv now key).getD "0")

/-! ## Upstream oracle -/

/-- Outcome of the one upstream `fetch` a request can perform:
a settled response (with parsed JSON body where the handler parses it),
or a thrown transport/parse failure. -/
inductive Upstream : Type where
  | resp : Nat → JVal → Upstream
  | thrown : Upstream

/-- Model of `res.ok`: status in the range 200–299. -/
def statusOk (s : Nat) : Bool := 200 ≤ s && s < 300

/-- Which upstream request a handler issued, keeping the dynamic parts
(the URL constants around them are fixed in the source). -/
inductive UpstreamReq : Type where
  | usdaSearch : String → UpstreamReq
  | offSearch : String → UpstreamReq
  | offProduct : String → UpstreamReq

/-- A handler run: the response, the updated store binding, and the
upstream request issued, if any. -/
structure HandlerRun : Type where
  response : Response
  rate : Option KV
  fetched : Option UpstreamReq

/-! ## `src/off.ts` product enrichment -/

/-- Model of `Object.keys(x).length` for the truthy shapes: object fields (JS
objects have distinct keys, so the field-list length is the key count),
array elements, string characters. -/
def objectKeysCount : JVal → Nat
  | .jobj fs => fs.length
  | .jarr xs => xs.length
  | .jstr s => s.toList.length
  | _ => 0

/-- The `has_nutrition` flag. -/
def hasNutritionFlag (p : JVal) : Bool :=
  match member p "nutriments" with
  | none => false
  | some v => truthyV v && objectKeysCount v > 0

/-- The `has_image` flag: `!!product.image_url`. -/
def hasImageFlag (p : JVal) : Bool := truthyO (member p "image_url")

/-- The resolved display name:
`product.product_name || product.product_name_en || `Product ${product.code}``. -/
def productNameOf (p : JVal) : JVal :=
  (jsOrO (member p "product_name")
    (jsOrO (member p "product_name_en")
      (some (.jstr ("Product " ++ jsToStrO (member p "code")))))).getD .jnull

/-- Model of `tags?.[0]` for a non-null `tags` value: array head, string head
character, object property `"0"`; `none` is `undefined`. -/
def tagIndexZero : JVal → Option JVal
  | .jarr xs => xs.head?
  | .jstr s =>
      match s.toList with
      | [] => none
      | c :: _ => some (.jstr (String.mk [c]))
  | .jobj fs => jlook fs "0"
  | _ => none

/-- Model of `elem?.replace('en:', '') || null` applied to the result of
`tags?.[0]`; the outer `none` is a thrown `TypeError` (`replace` on a
non-string). -/
def gradeOfTagElem : Option JVal → Option JVal
  | none => some .jnull
  | some .jnull => some .jnull
  | some (.jstr s) =>
      some (if replaceFirst s "en:" "" = "" then .jnull
            else .jstr (replaceFirst s "en:" ""))
  | some _ => none

/-- Model of `product.nutrition_grades_tags?.[0]?.replace('en:', '') || null`;
the outer `none` is a thrown `TypeError`. -/
def nutritionGrade (p : JVal) : Option JVal :=
  match member p "nutrition_grades_tags" with
  | none => some .jnull
  | some .jnull => some .jnull
  | some v => gradeOfTagElem (tagIndexZero v)

/-- Enrich one product record: spread the record, then assign the
resolved name, the two flags and the normalized grade.  `none` is a
thrown `TypeError` (member access on `null`, or `replace` on a
non-string tag), which the handler's `catch` turns into a 500. -/
def enrichProduct (p : JVal) : Option JVal :=
  match p with
  | .jnull => none
  | p =>
    match nutritionGrade p with
    | none => none
    | some grade =>
        some (.jobj
          (setField
            (setField
              (setField
                (setField (spreadFields p) "product_name" (productNameOf p))
                "has_nutrition" (.jbool (hasNutritionFlag p)))
              "has_image" (.jbool (hasImageFlag p)))
            "nutrition_grade" grade))

/-- Model of `data.products?.map(enrich) || []`: `undefined`/`null` give `[]`;
mapping propagates a thrown `TypeError`; `map` on a truthy non-array
value throws. -/
def mapProducts : Option JVal → Option (List JVal)
  | none => some []
  | some .jnull => some []
  | some (.jarr xs) => xs.mapM enrichProduct
  | some _ => none

/-- Member read `data.products` with a `TypeError` (`none`) when `data` is `null`. -/
def dataProducts : JVal → Option (Option JVal)
  | .jnull => none
  | v => some (member v "products")

/-! ## Handlers

The success branches in the source build their headers with
`{ ...cors().headers, "Content-Type": ..., "Cache-Control": ... }`.
`cors().headers` is a `Headers` instance, and object spread copies only
own enumerable properties, of which a `Headers` instance has none — the
spread contributes nothing.  A real success response therefore carries
only the literal `Content-Type` and `Cache-Control` pairs, no CORS
headers.  (The catch-all 404 passes the `Headers` instance directly as
`ResponseInit.headers`, which does attach them, and `cors`/`json` build
plain object literals, so those paths do carry what their literals
say.) -/

/-- The handler `handleOFFSearch(url)` given the upstream oracle.  Fetch happens
after query validation; `res.json()` failure is part of `Upstream.thrown`. -/
def handleOFFSearch (req : Request) (up : Upstream) :
    Response × Option UpstreamReq :=
  let query := searchParamGet req.urlQuery "query"
  if !truthyStr query then
    (json (.jobj [("error", .jstr "Missing ?query parameter")]) 400 [], none)
  else
    let q := query.getD ""
    match up with
    | .thrown =>
        (json (.jobj [("error", .jstr "Failed to fetch from Open Food Facts API")]) 500 [],
         some (.offSearch q))
    | .resp status data =>
        if !statusOk status then
          (json (.jobj [("error", .jstr "OFF API error"), ("status", .jnum status)]) 502 [],
           some (.offSearch q))
        else
          match dataProducts data with
          | none =>
              (json (.jobj [("error", .jstr "Failed to fetch from Open Food Facts API")]) 500 [],
               some (.offSearch q))
          | some pv =>
            match mapProducts pv with
            | none =>
                (json (.jobj [("error", .jstr "Failed to fetch from Open Food Facts API")]) 500 [],
                 some (.offSearch q))
            | some products =>
                let enhancedData := .jobj
                  (setField (spreadFields data) "products" (.jarr products))
                ({ status := status,
                   headers := hmerge
                     [("Content-Type", "application/json"),
                      ("Cache-Control", "s-maxage=300")],
                   body := .jsonOf enhancedData },
                 some (.offSearch q))

/-- The handler `handleOFFProduct(url, code)` given the upstream oracle. -/
def handleOFFProduct (req : Request) (code : Option String) (up : Upstream) :
    Response × Option UpstreamReq :=
  let productCode :=
    if truthyStr code then code else searchParamGet req.urlQuery "code"
  if !truthyStr productCode then
    (json (.jobj [("error",
        .jstr "Missing product code. Use /off/product/{code} or ?code parameter")]) 400 [],
     none)
  else
    let c := productCode.getD ""
    match up with
    | .thrown =>
        (json (.jobj [("error", .jstr "Failed to fetch from Open Food Facts API")]) 500 [],
         some (.offProduct c))
    | .resp status data =>
        if !statusOk status then
          (json (.jobj [("error", .jstr "OFF API error"), ("status", .jnum status)]) 502 [],
           some (.offProduct c))
        else
          ({ status := status,
             headers := hmerge
               [("Content-Type", "application/json"),
                ("Cache-Control", "s-maxage=86400")],
             body := .stream data },
           some (.offProduct c))

/-- The handler `handleOFF(req, env, ctx)` at instant `now` with the given store
binding and upstream oracle. -/
def handleOFF (req : Request) (rate : Option KV) (now : Nat)
    (up : Upstream) : HandlerRun :=
  if req.method = "OPTIONS" then
    { response := cors none, rate := rate, fetched := none }
  else
    let g := rateGate req.headers rate 6 60 now
    if !g.1.allowed then
      { response := json (.jobj [("error", .jstr "Rate limit exceeded")]) 429
          [("Retry-After", natToDec g.1.retryAfter)],
        rate := g.2, fetched := none }
    else
      let pathParts := pathSegments req.urlPath
      let endpoint := pathParts.get? 2
      if endpoint = some "search" then
        let r := handleOFFSearch req up
        { response := r.1, rate := g.2, fetched := r.2 }
      else if endpoint = some "product" then
        let r := handleOFFProduct req (pathParts.get? 3) up
        { response := r.1, rate := g.2, fetched := r.2 }
      else
        { response := json (.jobj
            [("error", .jstr "Invalid endpoint. Use /off/search or /off/product")]) 400 [],
          rate := g.2, fetched := none }

/-- The handler `handleUSDA(req, env, ctx)` at instant `now` with the given store
binding and upstream oracle. -/
def handleUSDA (req : Request) (rate : Option KV) (now : Nat)
    (up : Upstream) : HandlerRun :=
  if req.method = "OPTIONS" then
    { response := cors none, rate := rate, fetched := none }
  else
    let g := rateGate req.headers rate 10 60 now
    if !g.1.allowed then
      { response := json (.jobj [("error", .jstr "Rate limit exceeded")]) 429
          [("Retry-After", natToDec g.1.retryAfter)],
        rate := g.2, fetched := none }
    else
      let pathParts := pathSegments req.urlPath
      let endpoint := pathParts.get? 2
      if endpoint ≠ some "search" then
        { response := json (.jobj
            [("error", .jstr "Invalid endpoint. Use /usda/search")]) 400 [],
          rate := g.2, fetched := none }
      else
        let query := searchParamGet req.urlQuery "query"
        if !truthyStr query then
          { response := json (.jobj
              [("error", .jstr "Missing ?query parameter")]) 400 [],
            rate := g.2, fetched := none }
        else
          let q := query.getD ""
          match up with
          | .thrown =>
              { response := json (.jobj
                  [("error", .jstr "Failed to fetch from USDA API")]) 500 [],
                rate := g.2, fetched := some (.usdaSearch q) }
          | .resp status data =>
              if !statusOk status then
                { response := json (.jobj
                    [("error", .jstr "USDA API error"), ("status", .jnum status)]) 502 [],
                  rate := g.2, fetched := some (.usdaSearch q) }
              else
                { response :=
                    { status := status,
                      headers := hmerge
                        [("Content-Type", "application/json"),
                         ("Cache-Control", "s-maxage=300")],
                      body := .stream data },
                  rate := g.2, fetched := some (.usdaSearch q) }

/-- The worker's `fetch` entry point (`src/index.ts`): dispatch on path,
with the legacy root-path rewrite and the catch-all 404. -/
def workerFetch (req : Request) (rate : Option KV) (now : Nat)
    (up : Upstream) : HandlerRun :=
  let path := req.urlPath
  if strStarts path "/usda/" then handleUSDA req rate now up
  else if strStarts path "/off/" then handleOFF req rate now up
  else if (path = "/" || strStarts path "/?") &&
          truthyStr (searchParamGet req.urlQuery "query") then
    handleUSDA { req with urlPath := "/usda/search" } rate now up
  else
    { response :=
        { status := 404,
          headers := corsHeaders,
          body := .text "Not found. Use /usda/search or /off/search endpoints." },
      rate := rate, fetched := none }

/-- Iterated gate calls at one instant for one request, threading the
store binding: the per-call results and the final binding. -/
def gateCalls (reqHeaders : List (String × String)) (rate : Option KV)
    (limit windowSec now : Nat) : Nat → List GateResult × Option KV
  | 0 => ([], rate)
  | k + 1 =>
    let r := rateGate reqHeaders rate limit windowSec now
    let rest := gateCalls reqHeaders r.2 limit windowSec now k
    (r.1 :: rest.1, rest.2)

/-! ## Header predicates used by the invariants -/

/-- Number of `Content-Type` headers in a header list. -/
def ctCount (hs : List (String × String)) : Nat :=
  (hs.filter (fun e => e.1 = "Content-Type")).length

/-- The header list contains `Content-Type: application/json`. -/
def jsonCTB (hs : List (String × String)) : Bool :=
  hs.any (fun e => e = ("Content-Type", "application/json"))

/-- The header list contains all three CORS headers with their exact
documented values. -/
def hasCorsB (hs : List (String × String)) : Bool :=
  corsHeaders.all (fun c => hs.any (fun e => e = c))

/-- The header list contains no CORS header at all (not even under a
different value). -/
def noCorsB (hs : List (String × String)) : Bool :=
  hs.all (fun e => corsHeaders.all (fun c => e.1 ≠ c.1))

/-! ## Roundtrip: the gate reads back the counters it writes -/

theorem digitChar10_isDigit {d : Nat} (h : d < 10) :
    (digitChar10 d).isDigit = true := by
  interval_cases d <;> decide

theorem digitChar10_toNat {d : Nat} (h : d < 10) :
    (digitChar10 d).toNat = 48 + d := by
  interval_cases d <;> decide

theorem natToDecChars_digits (n : Nat) :
    ∀ c ∈ natToDecChars n, c.isDigit = true := by
  induction n using Nat.strong_induction_on with
  | _ n ih =>
    rw [natToDecChars]
    by_cases h : n < 10
    · simp only [if_pos h, List.mem_singleton]
      rintro c rfl
      exact digitChar10_isDigit h
    · simp only [if_neg h, List.mem_append, List.mem_singleton]
      rintro c (hc | rfl)
      · exact ih (n / 10) (Nat.div_lt_self (by omega) (by omega)) c hc
      · exact digitChar10_isDigit (Nat.mod_lt _ (by omega))

theorem natToDecChars_ne_nil (n : Nat) : natToDecChars n ≠ [] := by
  rw [natToDecChars]
  by_cases h : n < 10 <;> simp [h]

theorem decValue_append_digit (cs : List Char) (c : Char) :
    decValue (cs ++ [c]) = 10 * decValue cs + (c.toNat - 48) := by
  simp [decValue, List.foldl_append]

theorem decValue_natToDecChars (n : Nat) :
    decValue (natToDecChars n) = n := by
  induction n using Nat.strong_induction_on with
  | _ n ih =>
    rw [natToDecChars]
    by_cases h : n < 10
    · simp [if_pos h, decValue, digitChar10_toNat h]
    · rw [if_neg h, decValue_append_digit,
        ih (n / 10) (Nat.div_lt_self (by omega) (by omega)),
        digitChar10_toNat (Nat.mod_lt _ (by omega))]
      omega

theorem takeWhile_of_all {α : Type} (p : α → Bool) :
    ∀ cs : List α, (∀ c ∈ cs, p c = true) → cs.takeWhile p = cs
  | [], _ => rfl
  | c :: rest, h => by
    have hc : p c = true := h c (List.mem_cons_self c rest)
    simp only [List.takeWhile_cons, hc, if_pos]
    exact congrArg (c :: ·) (takeWhile_of_all p rest
      (fun x hx => h x (List.mem_cons_of_mem c hx)))

theorem parseIntChars_digits (cs : List Char) (h1 : cs ≠ [])
    (h2 : ∀ c ∈ cs, c.isDigit = true) :
    parseIntChars cs = some ((decValue cs : Nat) : Int) := by
  have hd : cs.takeWhile Char.isDigit = cs := takeWhile_of_all _ cs h2
  have hm : ∀ rest : List Char, cs = '-' :: rest → False := by
    intro rest heq
    rw [heq] at h2
    exact absurd (h2 '-' (List.mem_cons_self _ _)) (by decide)
  have hp : ∀ rest : List Char, cs = '+' :: rest → False := by
    intro rest heq
    rw [heq] at h2
    exact absurd (h2 '+' (List.mem_cons_self _ _)) (by decide)
  rw [parseIntChars.eq_3 cs hm hp, parseDigits]
  simp only [hd]
  rw [if_neg (by simpa [List.isEmpty_iff] using h1)]
  rfl

theorem parseIntJS_natToDec (n : Nat) :
    parseIntJS (natToDec n) = some (n : Int) := by
  have : parseIntJS (natToDec n) = parseIntChars (natToDecChars n) := rfl
  rw [this, parseIntChars_digits _ (natToDecChars_ne_nil n) (natToDecChars_digits n),
    decValue_natToDecChars]

theorem parseIntJS_intToDec_nonneg {i : Int} (h : 0 ≤ i) :
    parseIntJS (intToDec i) = some i := by
  rw [intToDec, if_neg (by omega)]
  rw [parseIntJS_natToDec, Int.natAbs_of_nonneg h]

/-! ## Rate-gate lemmas -/

theorem storedHits_absent (now : Nat) (key : String) :
    storedHits [] now key = some 0 := by
  have h0 : parseIntJS "0" = some 0 := by decide
  simp [storedHits, kvGet, kvFind, h0]

theorem storedHits_single {c : Int} (hc : 0 ≤ c) {W : Nat} (hW : 0 < W)
    (key : String) (t : Nat) :
    storedHits [(key, intToDec c, t + W)] t key = some c := by
  have h1 : kvFind [(key, intToDec c, t + W)] key = some (intToDec c, t + W) := by
    simp [kvFind]
  have h2 : kvGet [(key, intToDec c, t + W)] t key = some (intToDec c) := by
    rw [kvGet, h1]
    exact if_pos (by omega)
  rw [storedHits, h2]
  simpa using parseIntJS_intToDec_nonneg hc

theorem kvPut_single (key v v' : String) (t e W : Nat) :
    kvPut [(key, v, e)] t key v' W = [(key, v', t + W)] := by
  simp [kvPut, kvRemove]

/-- A gate call that reads hit count `c < limit` admits and bumps the
counter with a fresh TTL. -/
theorem rateGate_allowed_of_lt (hdrs : List (String × String)) (kv : KV)
    {N W now : Nat} {c : Int}
    (hh : storedHits kv now (rlKey hdrs) = some c) (hc : c < (N : Int)) :
    rateGate hdrs (some kv) N W now =
      ({ allowed := true, retryAfter := 0 },
        some (kvPut kv now (rlKey hdrs) (intToDec (c + 1)) W)) := by
  rw [storedHits] at hh
  rw [rateGate]
  rw [hh]
  dsimp only
  rw [if_neg (by omega)]

/-- A gate call that reads hit count `c ≥ limit` rejects and leaves the
store untouched. -/
theorem rateGate_reject_of_ge (hdrs : List (String × String)) (kv : KV)
    {N W now : Nat} {c : Int}
    (hh : storedHits kv now (rlKey hdrs) = some c) (hc : (N : Int) ≤ c) :
    rateGate hdrs (some kv) N W now =
      ({ allowed := false, retryAfter := W }, some kv) := by
  rw [storedHits] at hh
  rw [rateGate]
  rw [hh]
  dsimp only
  rw [if_pos (by omega)]

/-- Admitted calls keep coming until the counter reaches the limit, and
the call that finds the counter at the limit is rejected with the window
as the retry hint. -/
theorem gateCalls_until_reject (hdrs : List (String × String))
    {N W : Nat} (hW : 0 < W) (t : Nat) :
    ∀ (k c : Nat), c + k = N →
      gateCalls hdrs (some [(rlKey hdrs, intToDec (c : Int), t + W)]) N W t (k + 1) =
        (List.replicate k { allowed := true, retryAfter := 0 } ++
           [{ allowed := false, retryAfter := W }],
         some [(rlKey hdrs, intToDec (N : Int), t + W)])
  | 0, c, hc => by
    subst hc
    rw [gateCalls,
      rateGate_reject_of_ge hdrs _ (storedHits_single (by omega) hW _ t)
        (by omega)]
    rw [gateCalls]
    simp
  | k + 1, c, hc => by
    rw [gateCalls,
      rateGate_allowed_of_lt hdrs _ (storedHits_single (by omega) hW _ t)
        (by omega)]
    dsimp only
    rw [kvPut_single]
    have hcast : (c : Int) + 1 = ((c + 1 : Nat) : Int) := by push_cast; ring
    rw [hcast, gateCalls_until_reject hdrs hW t k (c + 1) (by omega)]
    simp [List.replicate_succ]

theorem kvPut_empty (key v : String) (t W : Nat) :
    kvPut [] t key v W = [(key, v, t + W)] := by
  simp [kvPut, kvRemove]

/-- The full fixed-window run: from a fresh store, `N` admitted calls,
then a rejection carrying the window, inside one window. -/
theorem gateCalls_fresh_run (hdrs : List (String × String))
    {N W : Nat} (hN : 0 < N) (hW : 0 < W) (t : Nat) :
    gateCalls hdrs (some ([] : KV)) N W t (N + 1) =
      (List.replicate N { allowed := true, retryAfter := 0 } ++
         [{ allowed := false, retryAfter := W }],
       some [(rlKey hdrs, intToDec (N : Int), t + W)]) := by
  obtain ⟨M, rfl⟩ : ∃ M, N = M + 1 := ⟨N - 1, by omega⟩
  rw [gateCalls,
    rateGate_allowed_of_lt hdrs _ (storedHits_absent t (rlKey hdrs))
      (by push_cast; omega)]
  dsimp only
  rw [kvPut_empty]
  rw [show ((0 : Int) + 1) = ((1 : Nat) : Int) by norm_num]
  rw [gateCalls_until_reject hdrs hW t M 1 (by omega)]
  simp [List.replicate_succ]

/-- With no counter store bound, every call in any sequence is admitted
and nothing is ever stored. -/
theorem gateCalls_none (hdrs : List (String × String))
    (limit windowSec now : Nat) :
    ∀ k : Nat, gateCalls hdrs none limit windowSec now k =
      (List.replicate k { allowed := true, retryAfter := 0 }, none)
  | 0 => by rw [gateCalls]; rfl
  | k + 1 => by
    rw [gateCalls, rateGate]
    dsimp only
    rw [gateCalls_none hdrs limit windowSec now k]
    simp [List.replicate_succ]

theorem kvFind_mem : ∀ (kv : KV) (key v : String) (e : Nat),
    kvFind kv key = some (v, e) → (key, v, e) ∈ kv
  | [], _, _, _, h => by simp [kvFind] at h
  | (k, v', e') :: rest, key, v, e, h => by
    rw [kvFind] at h
    by_cases hk : k = key
    · rw [if_pos hk] at h
      obtain ⟨rfl, rfl⟩ : v' = v ∧ e' = e := by
        constructor <;> injection h with h' <;> simp_all
      subst hk
      exact List.mem_cons_self _ _
    · rw [if_neg hk] at h
      exact List.mem_cons_of_mem _ (kvFind_mem rest key v e h)

/-- When every entry for a key has expired, `get` yields null. -/
theorem kvGet_none_of_expired (kv : KV) (key : String) (now : Nat)
    (h : ∀ e ∈ kv, e.1 = key → e.2.2 ≤ now) :
    kvGet kv now key = none := by
  rw [kvGet]
  cases hf : kvFind kv key with
  | none => rfl
  | some ve =>
    obtain ⟨v, ex⟩ := ve
    have hm := kvFind_mem kv key v ex hf
    have hle : ex ≤ now := h (key, v, ex) hm rfl
    dsimp only
    rw [if_neg (by omega)]

theorem storedHits_expired (kv : KV) (key : String) (now : Nat)
    (h : ∀ e ∈ kv, e.1 = key → e.2.2 ≤ now) :
    storedHits kv now key = some 0 := by
  rw [storedHits, kvGet_none_of_expired kv key now h]
  decide

/-- Claim C2: with a counter store configured, a call that reads a
stored hit count strictly below the limit is admitted and writes
count+1 with the window as its TTL; consequently, within one window the
first `N` calls from one identity are admitted and the `(N+1)`th is
rejected with `retryAfter` equal to the window; and once the TTL of the
identity's entry has elapsed, a subsequent call is admitted again. -/
theorem claim2_rate_gate_window (hdrs : List (String × String))
    (N W now : Nat) (hN : 0 < N) (hW : 0 < W) :
    (∀ (kv : KV) (c : Int),
      storedHits kv now (rlKey hdrs) = some c → c < (N : Int) →
      rateGate hdrs (some kv) N W now =
        ({ allowed := true, retryAfter := 0 },
         some (kvPut kv now (rlKey hdrs) (intToDec (c + 1)) W)) ∧
      kvFind (kvPut kv now (rlKey hdrs) (intToDec (c + 1)) W) (rlKey hdrs) =
        some (intToDec (c + 1), now + W))
    ∧
    ((gateCalls hdrs (some ([] : KV)) N W now (N + 1)).1 =
      List.replicate N { allowed := true, retryAfter := 0 } ++
        [{ allowed := false, retryAfter := W }])
    ∧
    (∀ (kv : KV) (t' : Nat),
      (∀ e ∈ kv, e.1 = rlKey hdrs → e.2.2 ≤ t') →
      (rateGate hdrs (some kv) N W t').1.allowed = true)
    ∧
    (∀ t' : Nat, now + W ≤ t' →
      (rateGate hdrs
        (some ((gateCalls hdrs (some ([] : KV)) N W now (N + 1)).2.getD []))
        N W t').1.allowed = true) := by
  have hexp : ∀ (kv : KV) (t' : Nat),
      (∀ e ∈ kv, e.1 = rlKey hdrs → e.2.2 ≤ t') →
      (rateGate hdrs (some kv) N W t').1.allowed = true := by
    intro kv t' h
    rw [rateGate_allowed_of_lt hdrs kv
      (storedHits_expired kv (rlKey hdrs) t' h) (by omega)]
  refine ⟨?_, ?_, hexp, ?_⟩
  · intro kv c hh hc
    refine ⟨rateGate_allowed_of_lt hdrs kv hh hc, ?_⟩
    simp [kvPut, kvFind]
  · rw [gateCalls_fresh_run hdrs hN hW now]
  · intro t' ht
    rw [gateCalls_fresh_run hdrs hN hW now]
    apply hexp
    intro e he hk
    simp only [Option.getD_some, List.mem_singleton] at he
    subst he
    simpa using ht

/-- Witness for C2 at `N = 2`, `W = 60`, fresh store, instant 0. -/
theorem claim2_rate_gate_window_witness :
    0 < 2 ∧ 0 < 60 ∧
    ((∀ (kv : KV) (c : Int),
      storedHits kv 0 (rlKey []) = some c → c < (2 : Int) →
      rateGate [] (some kv) 2 60 0 =
        ({ allowed := true, retryAfter := 0 },
         some (kvPut kv 0 (rlKey []) (intToDec (c + 1)) 60)) ∧
      kvFind (kvPut kv 0 (rlKey []) (intToDec (c + 1)) 60) (rlKey []) =
        some (intToDec (c + 1), 0 + 60))
    ∧
    ((gateCalls [] (some ([] : KV)) 2 60 0 (2 + 1)).1 =
      List.replicate 2 { allowed := true, retryAfter := 0 } ++
        [{ allowed := false, retryAfter := 60 }])
    ∧
    (∀ (kv : KV) (t' : Nat),
      (∀ e ∈ kv, e.1 = rlKey [] → e.2.2 ≤ t') →
      (rateGate [] (some kv) 2 60 t').1.allowed = true)
    ∧
    (∀ t' : Nat, 0 + 60 ≤ t' →
      (rateGate []
        (some ((gateCalls [] (some ([] : KV)) 2 60 0 (2 + 1)).2.getD []))
        2 60 t').1.allowed = true)) :=
  ⟨by decide, by decide,
    claim2_rate_gate_window [] 2 60 0 (by decide) (by decide)⟩

/-- Claim C3: a gate call that rejects (stored count at or above the
limit) performs no write: the store comes back exactly as it was, every
entry, value and expiry included. -/
theorem claim3_reject_no_write (hdrs : List (String × String)) (kv : KV)
    (limit windowSec now : Nat) (c : Int)
    (hh : storedHits kv now (rlKey hdrs) = some c)
    (hc : (limit : Int) ≤ c) :
    rateGate hdrs (some kv) limit windowSec now =
      ({ allowed := false, retryAfter := windowSec }, some kv) :=
  rateGate_reject_of_ge hdrs kv hh hc

/-- Witness for C3: a stored count of 5 against a limit of 3. -/
theorem claim3_reject_no_write_witness :
    storedHits [("rl:0.0.0.0", "5", 100)] 0 (rlKey []) = some 5 ∧
    (3 : Int) ≤ 5 ∧
    rateGate [] (some [("rl:0.0.0.0", "5", 100)]) 3 60 0 =
      ({ allowed := false, retryAfter := 60 },
       some [("rl:0.0.0.0", "5", 100)]) :=
  ⟨by decide, by decide,
    claim3_reject_no_write [] [("rl:0.0.0.0", "5", 100)] 3 60 0 5
      (by decide) (by decide)⟩

/-- Claim C4: with no counter store bound, a gate call is admitted with
no retry hint and no store ever comes into existence, regardless of how
many calls preceded it. -/
theorem claim4_no_store (hdrs : List (String × String))
    (limit windowSec now k : Nat) :
    rateGate hdrs none limit windowSec now =
      ({ allowed := true, retryAfter := 0 }, none) ∧
    gateCalls hdrs none limit windowSec now k =
      (List.replicate k { allowed := true, retryAfter := 0 }, none) :=
  ⟨by rw [rateGate], gateCalls_none hdrs limit windowSec now k⟩

/-! ## Router claims -/

/-- Claim C7: an `OPTIONS` request under `/usda/` or `/off/` gets the
204 preflight response carrying exactly the three CORS headers, with
the store untouched, no upstream call and no validation performed,
whatever the store contents, query and sub-path are. -/
theorem claim7_options_preflight (req : Request) (rate : Option KV)
    (now : Nat) (up : Upstream)
    (hm : req.method = "OPTIONS")
    (hp : strStarts req.urlPath "/usda/" = true ∨
          strStarts req.urlPath "/off/" = true) :
    workerFetch req rate now up =
      { response := { status := 204, headers := corsHeaders, body := .empty },
        rate := rate, fetched := none } := by
  by_cases hu : strStarts req.urlPath "/usda/" = true
  · simp only [workerFetch, hu, if_true, handleUSDA, hm, if_pos]
    rfl
  · have ho : strStarts req.urlPath "/off/" = true := by tauto
    simp only [workerFetch, hu, ho, if_true, Bool.false_eq_true, if_false,
      handleOFF, hm, if_pos]
    rfl

/-- Witness for C7: a rate-limited `OPTIONS` preflight with a bad
sub-path on `/usda/nonsense` still gets the plain 204 CORS response. -/
theorem claim7_options_preflight_witness :
    ("OPTIONS" : String) = "OPTIONS" ∧
    (strStarts "/usda/nonsense" "/usda/" = true ∨
     strStarts "/usda/nonsense" "/off/" = true) ∧
    workerFetch
        { method := "OPTIONS", urlPath := "/usda/nonsense",
          urlQuery := [], headers := [] }
        (some [("rl:0.0.0.0", "99", 100)]) 0 .thrown =
      { response := { status := 204, headers := corsHeaders, body := .empty },
        rate := some [("rl:0.0.0.0", "99", 100)], fetched := none } :=
  ⟨rfl, by decide,
    claim7_options_preflight
      { method := "OPTIONS", urlPath := "/usda/nonsense",
        urlQuery := [], headers := [] }
      (some [("rl:0.0.0.0", "99", 100)]) 0 .thrown rfl (by decide)⟩

/-- Claim C5: a request to path `/` with a truthy `query` parameter is
rewritten — same method, headers and query string, path replaced by
`/usda/search` — and delegated to the USDA handler; with no or an empty
`query` parameter it gets the catch-all 404 (CORS headers, fixed plain
body) without any handler or upstream involvement. -/
theorem claim5_root_rewrite (req : Request) (rate : Option KV)
    (now : Nat) (up : Upstream)
    (hpath : req.urlPath = "/") :
    (truthyStr (searchParamGet req.urlQuery "query") = true →
      workerFetch req rate now up =
        handleUSDA { req with urlPath := "/usda/search" } rate now up)
    ∧
    (truthyStr (searchParamGet req.urlQuery "query") = false →
      workerFetch req rate now up =
        { response :=
            { status := 404,
              headers := corsHeaders,
              body := .text "Not found. Use /usda/search or /off/search endpoints." },
          rate := rate, fetched := none }) := by
  constructor <;> intro hq <;>
    simp only [workerFetch, hpath, hq] <;> rfl

/-- Witness for C5 at `/?query=apple` and `/?query=` with a fresh
store. -/
theorem claim5_root_rewrite_witness :
    (("/" : String) = "/" ∧
     truthyStr (searchParamGet [("query", "apple")] "query") = true ∧
     workerFetch
         { method := "GET", urlPath := "/",
           urlQuery := [("query", "apple")], headers := [] }
         none 0 (.resp 200 (.jobj [])) =
       handleUSDA
         { method := "GET", urlPath := "/usda/search",
           urlQuery := [("query", "apple")], headers := [] }
         none 0 (.resp 200 (.jobj [])))
    ∧
    (truthyStr (searchParamGet [("query", "")] "query") = false ∧
     workerFetch
         { method := "GET", urlPath := "/",
           urlQuery := [("query", "")], headers := [] }
         none 0 (.resp 200 (.jobj [])) =
       { response :=
           { status := 404,
             headers := corsHeaders,
             body := .text "Not found. Use /usda/search or /off/search endpoints." },
         rate := none, fetched := none }) :=
  ⟨⟨rfl, by decide,
    (claim5_root_rewrite
      { method := "GET", urlPath := "/",
        urlQuery := [("query", "apple")], headers := [] }
      none 0 (.resp 200 (.jobj [])) rfl).1 (by decide)⟩,
   ⟨by decide,
    (claim5_root_rewrite
      { method := "GET", urlPath := "/",
        urlQuery := [("query", "")], headers := [] }
      none 0 (.resp 200 (.jobj [])) rfl).2 (by decide)⟩⟩

theorem natToDec_sixty : natToDec 60 = "60" := by
  rw [natToDec, natToDecChars, if_neg (by norm_num), natToDecChars,
    if_pos (by norm_num)]
  decide

theorem strStarts_off_not_usda (p : String)
    (h : strStarts p "/off/" = true) : strStarts p "/usda/" = false := by
  unfold strStarts at h ⊢
  revert h
  rcases p.toList with _ | ⟨c1, _ | ⟨c2, rest⟩⟩ <;> simp [isPreL]
  intro h1 h2
  subst h1
  subst h2
  simp

/-- Claim C8: a non-`OPTIONS` request under `/usda/` or `/off/` whose
stored hit count has reached the handler's limit (10 resp. 6) gets a
429 with body `{"error": "Rate limit exceeded"}` and a `Retry-After`
header equal to the handler's 60-second window. -/
theorem claim8_rate_limited_response (req : Request) (kv : KV)
    (now : Nat) (up : Upstream) (c : Int)
    (hm : ¬ req.method = "OPTIONS")
    (hh : storedHits kv now (rlKey req.headers) = some c) :
    (strStarts req.urlPath "/usda/" = true → (10 : Int) ≤ c →
      (workerFetch req (some kv) now up).response =
        { status := 429,
          headers := [("Content-Type", "application/json"),
                      ("Retry-After", "60")],
          body := .jsonOf (.jobj [("error", .jstr "Rate limit exceeded")]) })
    ∧
    (strStarts req.urlPath "/off/" = true → (6 : Int) ≤ c →
      (workerFetch req (some kv) now up).response =
        { status := 429,
          headers := [("Content-Type", "application/json"),
                      ("Retry-After", "60")],
          body := .jsonOf (.jobj [("error", .jstr "Rate limit exceeded")]) }) := by
  constructor
  · intro hp hc
    simp only [workerFetch, hp, if_true, handleUSDA, hm, if_false,
      rateGate_reject_of_ge req.headers kv hh hc, natToDec_sixty]
    rfl
  · intro hp hc
    simp only [workerFetch, strStarts_off_not_usda req.urlPath hp,
      Bool.false_eq_true, if_false, hp, if_true, handleOFF, hm,
      rateGate_reject_of_ge req.headers kv hh hc, natToDec_sixty]
    rfl

/-- Witness for C8: both handlers at a stored count of 50. -/
theorem claim8_rate_limited_response_witness :
    ¬ ("GET" : String) = "OPTIONS" ∧
    storedHits [("rl:0.0.0.0", "50", 10)] 5 (rlKey []) = some 50 ∧
    (strStarts "/usda/search" "/usda/" = true ∧ (10 : Int) ≤ 50 ∧
      (workerFetch
          { method := "GET", urlPath := "/usda/search",
            urlQuery := [("query", "apple")], headers := [] }
          (some [("rl:0.0.0.0", "50", 10)]) 5 .thrown).response =
        { status := 429,
          headers := [("Content-Type", "application/json"),
                      ("Retry-After", "60")],
          body := .jsonOf (.jobj [("error", .jstr "Rate limit exceeded")]) }) ∧
    (strStarts "/off/search" "/off/" = true ∧ (6 : Int) ≤ 50 ∧
      (workerFetch
          { method := "GET", urlPath := "/off/search",
            urlQuery := [("query", "apple")], headers := [] }
          (some [("rl:0.0.0.0", "50", 10)]) 5 .thrown).response =
        { status := 429,
          headers := [("Content-Type", "application/json"),
                      ("Retry-After", "60")],
          body := .jsonOf (.jobj [("error", .jstr "Rate limit exceeded")]) }) :=
  ⟨by decide, by decide,
   ⟨by decide, by decide,
    (claim8_rate_limited_response
      { method := "GET", urlPath := "/usda/search",
        urlQuery := [("query", "apple")], headers := [] }
      [("rl:0.0.0.0", "50", 10)] 5 .thrown 50 (by decide) (by decide)).1
      (by decide) (by decide)⟩,
   ⟨by decide, by decide,
    (claim8_rate_limited_response
      { method := "GET", urlPath := "/off/search",
        urlQuery := [("query", "apple")], headers := [] }
      [("rl:0.0.0.0", "50", 10)] 5 .thrown 50 (by decide) (by decide)).2
      (by decide) (by decide)⟩⟩

/-! ## OFF product code resolution and empty-query handling -/

theorem offProduct_fetched_some (req : Request) (up : Upstream)
    (code : Option String) (c : String)
    (hcode : code = some c) (hc : c ≠ "") :
    (handleOFFProduct req code up).2 = some (.offProduct c) := by
  subst hcode
  have ht : truthyStr (some c) = true := by simp [truthyStr, hc]
  rw [handleOFFProduct]
  simp only [ht, if_true, Bool.not_true, Bool.false_eq_true, if_false,
    Option.getD_some]
  cases up with
  | thrown => rfl
  | resp status data =>
    by_cases hok : statusOk status = true <;> simp [hok]

/-- Claim C9: on `/off/product`, a non-empty third path segment is the
barcode used for the upstream call — query parameters notwithstanding;
with no path segment, a non-empty `code` query parameter is used; with
neither, a 400 whose error message contains `"Missing product code"`. -/
theorem claim9_off_product_code (req : Request) (rate : Option KV)
    (now : Nat) (up : Upstream)
    (hm : ¬ req.method = "OPTIONS")
    (hallow : (rateGate req.headers rate 6 60 now).1.allowed = true)
    (hprod : (pathSegments req.urlPath).get? 2 = some "product") :
    (∀ c : String, (pathSegments req.urlPath).get? 3 = some c → c ≠ "" →
      (handleOFF req rate now up).fetched = some (.offProduct c))
    ∧
    ((pathSegments req.urlPath).get? 3 = none →
      ∀ q : String, searchParamGet req.urlQuery "code" = some q → q ≠ "" →
        (handleOFF req rate now up).fetched = some (.offProduct q))
    ∧
    ((pathSegments req.urlPath).get? 3 = none →
      truthyStr (searchParamGet req.urlQuery "code") = false →
      (handleOFF req rate now up).response =
        { status := 400,
          headers := [("Content-Type", "application/json")],
          body := .jsonOf (.jobj [("error", .jstr
            "Missing product code. Use /off/product/{code} or ?code parameter")]) } ∧
      containsSub
        "Missing product code. Use /off/product/{code} or ?code parameter"
        "Missing product code" = true) := by
  have hred : handleOFF req rate now up =
      { response := (handleOFFProduct req
          ((pathSegments req.urlPath).get? 3) up).1,
        rate := (rateGate req.headers rate 6 60 now).2,
        fetched := (handleOFFProduct req
          ((pathSegments req.urlPath).get? 3) up).2 } := by
    rw [handleOFF, if_neg hm]
    simp only [hallow, Bool.not_true, Bool.false_eq_true, if_false, hprod]
    simp
  refine ⟨?_, ?_, ?_⟩
  · intro c hseg hc
    rw [hred]
    exact offProduct_fetched_some req up _ c hseg hc
  · intro hseg q hcode hq
    rw [hred, hseg, handleOFFProduct]
    have ht : truthyStr (some q) = true := by simp [truthyStr, hq]
    simp only [show truthyStr none = false from rfl, Bool.false_eq_true,
      if_false, hcode, ht, Bool.not_true, Option.getD_some]
    cases up with
    | thrown => rfl
    | resp status data =>
      by_cases hok : statusOk status = true <;> simp [hok]
  · intro hseg hcode
    rw [hred, hseg, handleOFFProduct]
    simp only [show truthyStr none = false from rfl, Bool.false_eq_true,
      if_false, hcode, Bool.not_false, if_true]
    exact ⟨rfl, by decide⟩

/-- Witness for C9: `/off/product/4006381333931?code=other` uses the
path segment; `/off/product?code=4006381333931` uses the query
parameter; `/off/product` is a 400. -/
theorem claim9_off_product_code_witness :
    (¬ ("GET" : String) = "OPTIONS") ∧
    (rateGate [] none 6 60 0).1.allowed = true ∧
    ((pathSegments "/off/product/4006381333931").get? 2 = some "product" ∧
     (pathSegments "/off/product/4006381333931").get? 3 =
       some "4006381333931" ∧
     (handleOFF
         { method := "GET", urlPath := "/off/product/4006381333931",
           urlQuery := [("code", "other")], headers := [] }
         none 0 (.resp 200 (.jobj []))).fetched =
       some (.offProduct "4006381333931")) ∧
    ((pathSegments "/off/product").get? 2 = some "product" ∧
     (pathSegments "/off/product").get? 3 = none ∧
     (handleOFF
         { method := "GET", urlPath := "/off/product",
           urlQuery := [("code", "4006381333931")], headers := [] }
         none 0 (.resp 200 (.jobj []))).fetched =
       some (.offProduct "4006381333931")) ∧
    ((handleOFF
         { method := "GET", urlPath := "/off/product",
           urlQuery := [], headers := [] }
         none 0 (.resp 200 (.jobj []))).response =
       { status := 400,
         headers := [("Content-Type", "application/json")],
         body := .jsonOf (.jobj [("error", .jstr
           "Missing product code. Use /off/product/{code} or ?code parameter")]) }) :=
  ⟨by decide, by decide,
   ⟨by decide, by decide,
    (claim9_off_product_code
      { method := "GET", urlPath := "/off/product/4006381333931",
        urlQuery := [("code", "other")], headers := [] }
      none 0 (.resp 200 (.jobj [])) (by decide) (by decide) (by decide)).1
      "4006381333931" (by decide) (by decide)⟩,
   ⟨by decide, by decide,
    ((claim9_off_product_code
      { method := "GET", urlPath := "/off/product",
        urlQuery := [("code", "4006381333931")], headers := [] }
      none 0 (.resp 200 (.jobj [])) (by decide) (by decide) (by decide)).2.1
      (by decide) "4006381333931" (by decide) (by decide))⟩,
   (((claim9_off_product_code
      { method := "GET", urlPath := "/off/product",
        urlQuery := [], headers := [] }
      none 0 (.resp 200 (.jobj [])) (by decide) (by decide) (by decide)).2.2
      (by decide) (by decide)).1)⟩

/-- Claim C10: a `query` parameter present but empty is treated exactly
like an absent one on both search endpoints: 400 with
`{"error": "Missing ?query parameter"}` and no upstream call at all. -/
theorem claim10_empty_query (req : Request) (rate : Option KV)
    (now : Nat) (up : Upstream)
    (hm : ¬ req.method = "OPTIONS")
    (hq : searchParamGet req.urlQuery "query" = some "")
    (hsearch : (pathSegments req.urlPath).get? 2 = some "search") :
    ((rateGate req.headers rate 10 60 now).1.allowed = true →
      (handleUSDA req rate now up).response =
        { status := 400,
          headers := [("Content-Type", "application/json")],
          body := .jsonOf (.jobj [("error", .jstr "Missing ?query parameter")]) } ∧
      (handleUSDA req rate now up).fetched = none)
    ∧
    ((rateGate req.headers rate 6 60 now).1.allowed = true →
      (handleOFF req rate now up).response =
        { status := 400,
          headers := [("Content-Type", "application/json")],
          body := .jsonOf (.jobj [("error", .jstr "Missing ?query parameter")]) } ∧
      (handleOFF req rate now up).fetched = none) := by
  constructor
  · intro hallow
    rw [handleUSDA, if_neg hm]
    simp only [hallow, Bool.not_true, Bool.false_eq_true, if_false, hsearch]
    simp only [ne_eq, Option.some.injEq, not_true_eq_false, if_false, hq,
      show truthyStr (some "") = false from rfl, Bool.not_false, if_true]
    refine ⟨?_, ?_⟩ <;> trivial
  · intro hallow
    rw [handleOFF, if_neg hm]
    simp only [hallow, Bool.not_true, Bool.false_eq_true, if_false, hsearch,
      if_true, handleOFFSearch, hq,
      show truthyStr (some "") = false from rfl, Bool.not_false]
    refine ⟨?_, ?_⟩ <;> trivial

/-- Witness for C10 at `?query=` on both endpoints with no store
bound. -/
theorem claim10_empty_query_witness :
    (¬ ("GET" : String) = "OPTIONS") ∧
    searchParamGet [("query", "")] "query" = some "" ∧
    (pathSegments "/usda/search").get? 2 = some "search" ∧
    ((rateGate [] none 10 60 0).1.allowed = true →
      (handleUSDA
          { method := "GET", urlPath := "/usda/search",
            urlQuery := [("query", "")], headers := [] }
          none 0 .thrown).response =
        { status := 400,
          headers := [("Content-Type", "application/json")],
          body := .jsonOf (.jobj [("error", .jstr "Missing ?query parameter")]) } ∧
      (handleUSDA
          { method := "GET", urlPath := "/usda/search",
            urlQuery := [("query", "")], headers := [] }
          none 0 .thrown).fetched = none) ∧
    ((rateGate [] none 6 60 0).1.allowed = true →
      (handleOFF
          { method := "GET", urlPath := "/usda/search",
            urlQuery := [("query", "")], headers := [] }
          none 0 .thrown).response =
        { status := 400,
          headers := [("Content-Type", "application/json")],
          body := .jsonOf (.jobj [("error", .jstr "Missing ?query parameter")]) } ∧
      (handleOFF
          { method := "GET", urlPath := "/usda/search",
            urlQuery := [("query", "")], headers := [] }
          none 0 .thrown).fetched = none) :=
  ⟨by decide, by decide, by decide,
    (claim10_empty_query
      { method := "GET", urlPath := "/usda/search",
        urlQuery := [("query", "")], headers := [] }
      none 0 .thrown (by decide) (by decide) (by decide)).1,
    (claim10_empty_query
      { method := "GET", urlPath := "/usda/search",
        urlQuery := [("query", "")], headers := [] }
      none 0 .thrown (by decide) (by decide) (by decide)).2⟩

/-! ## Object-literal field lemmas and the OFF enrichment claim -/

theorem jlook_setField_same : ∀ (fs : List (String × JVal)) (k : String)
    (v : JVal), jlook (setField fs k v) k = some v
  | [], k, v => by simp [setField, jlook]
  | e :: rest, k, v => by
    rw [setField]
    by_cases he : e.1 = k
    · rw [if_pos he, jlook, if_pos rfl]
    · rw [if_neg he, jlook, if_neg he]
      exact jlook_setField_same rest k v

theorem jlook_setField_other : ∀ (fs : List (String × JVal)) (k k' : String)
    (v : JVal), k' ≠ k → jlook (setField fs k v) k' = jlook fs k'
  | [], k, k', v, h => by
    simp [setField, jlook, Ne.symm h]
  | e :: rest, k, k', v, h => by
    rw [setField]
    by_cases he : e.1 = k
    · rw [if_pos he, jlook, jlook]
      rw [if_neg (show ¬ k = k' from fun hk => h hk.symm)]
      rw [if_neg (show ¬ e.1 = k' from by rw [he]; exact fun hk => h hk.symm)]
    · rw [if_neg he, jlook, jlook]
      by_cases hk : e.1 = k'
      · rw [if_pos hk, if_pos hk]
      · rw [if_neg hk, if_neg hk]
        exact jlook_setField_other rest k k' v h

theorem enrichProduct_obj (pfs : List (String × JVal)) (grade : JVal)
    (hng : nutritionGrade (.jobj pfs) = some grade) :
    enrichProduct (.jobj pfs) =
      some (.jobj (setField (setField (setField (setField pfs
        "product_name" (productNameOf (.jobj pfs)))
        "has_nutrition" (.jbool (hasNutritionFlag (.jobj pfs))))
        "has_image" (.jbool (hasImageFlag (.jobj pfs))))
        "nutrition_grade" grade)) := by
  rw [enrichProduct.eq_def]
  dsimp only
  rw [hng]
  rfl

/-- The derived fields of one enriched product record, against its
source record: frame copy of untouched fields, the display-name
fallback chain, the two boolean flags, and the normalized grade. -/
theorem enrichProduct_fields (pfs : List (String × JVal)) (q : JVal)
    (henr : enrichProduct (.jobj pfs) = some q) :
    (∀ k : String, k ≠ "product_name" → k ≠ "has_nutrition" →
        k ≠ "has_image" → k ≠ "nutrition_grade" →
        member q k = member (.jobj pfs) k)
    ∧
    (truthyO (member (.jobj pfs) "product_name") = true →
      member q "product_name" = member (.jobj pfs) "product_name")
    ∧
    (truthyO (member (.jobj pfs) "product_name") = false →
      truthyO (member (.jobj pfs) "product_name_en") = true →
      member q "product_name" = member (.jobj pfs) "product_name_en")
    ∧
    (truthyO (member (.jobj pfs) "product_name") = false →
      truthyO (member (.jobj pfs) "product_name_en") = false →
      member q "product_name" =
        some (.jstr ("Product " ++ jsToStrO (member (.jobj pfs) "code"))))
    ∧
    ((member (.jobj pfs) "nutriments" = none ∨
      (∃ nfs, member (.jobj pfs) "nutriments" = some (.jobj nfs))) →
      (member q "has_nutrition" = some (.jbool true) ↔
        ∃ nfs, member (.jobj pfs) "nutriments" = some (.jobj nfs) ∧ nfs ≠ []))
    ∧
    ((member (.jobj pfs) "image_url" = none ∨
      (∃ s, member (.jobj pfs) "image_url" = some (.jstr s))) →
      (member q "has_image" = some (.jbool true) ↔
        ∃ s, member (.jobj pfs) "image_url" = some (.jstr s) ∧ s ≠ ""))
    ∧
    ((member (.jobj pfs) "nutrition_grades_tags" = none ∨
      member (.jobj pfs) "nutrition_grades_tags" = some .jnull ∨
      member (.jobj pfs) "nutrition_grades_tags" = some (.jarr [])) →
      member q "nutrition_grade" = some .jnull)
    ∧
    (∀ (t : String) (ts : List JVal),
      member (.jobj pfs) "nutrition_grades_tags" =
        some (.jarr (.jstr t :: ts)) →
      member q "nutrition_grade" =
        some (if replaceFirst t "en:" "" = "" then .jnull
              else .jstr (replaceFirst t "en:" ""))) := by
  obtain ⟨grade, hng⟩ : ∃ g, nutritionGrade (.jobj pfs) = some g := by
    cases hg : nutritionGrade (.jobj pfs) with
    | none => rw [enrichProduct.eq_def] at henr; dsimp only at henr;
              rw [hg] at henr; exact absurd henr (by simp)
    | some g => exact ⟨g, rfl⟩
  have hq : q = .jobj (setField (setField (setField (setField pfs
      "product_name" (productNameOf (.jobj pfs)))
      "has_nutrition" (.jbool (hasNutritionFlag (.jobj pfs))))
      "has_image" (.jbool (hasImageFlag (.jobj pfs))))
      "nutrition_grade" grade) := by
    rw [enrichProduct_obj pfs grade hng] at henr
    exact (Option.some.injEq _ _ ▸ henr).symm
  subst hq
  have mq_pn : member (JVal.jobj (setField (setField (setField (setField pfs
      "product_name" (productNameOf (.jobj pfs)))
      "has_nutrition" (.jbool (hasNutritionFlag (.jobj pfs))))
      "has_image" (.jbool (hasImageFlag (.jobj pfs))))
      "nutrition_grade" grade)) "product_name" =
      some (productNameOf (.jobj pfs)) := by
    show jlook _ "product_name" = _
    rw [jlook_setField_other _ _ _ _ (by decide),
      jlook_setField_other _ _ _ _ (by decide),
      jlook_setField_other _ _ _ _ (by decide),
      jlook_setField_same]
  have mq_hn : member (JVal.jobj (setField (setField (setField (setField pfs
      "product_name" (productNameOf (.jobj pfs)))
      "has_nutrition" (.jbool (hasNutritionFlag (.jobj pfs))))
      "has_image" (.jbool (hasImageFlag (.jobj pfs))))
      "nutrition_grade" grade)) "has_nutrition" =
      some (.jbool (hasNutritionFlag (.jobj pfs))) := by
    show jlook _ "has_nutrition" = _
    rw [jlook_setField_other _ _ _ _ (by decide),
      jlook_setField_other _ _ _ _ (by decide),
      jlook_setField_same]
  have mq_hi : member (JVal.jobj (setField (setField (setField (setField pfs
      "product_name" (productNameOf (.jobj pfs)))
      "has_nutrition" (.jbool (hasNutritionFlag (.jobj pfs))))
      "has_image" (.jbool (hasImageFlag (.jobj pfs))))
      "nutrition_grade" grade)) "has_image" =
      some (.jbool (hasImageFlag (.jobj pfs))) := by
    show jlook _ "has_image" = _
    rw [jlook_setField_other _ _ _ _ (by decide), jlook_setField_same]
  have mq_ng : member (JVal.jobj (setField (setField (setField (setField pfs
      "product_name" (productNameOf (.jobj pfs)))
      "has_nutrition" (.jbool (hasNutritionFlag (.jobj pfs))))
      "has_image" (.jbool (hasImageFlag (.jobj pfs))))
      "nutrition_grade" grade)) "nutrition_grade" = some grade := by
    show jlook _ "nutrition_grade" = _
    rw [jlook_setField_same]
  refine ⟨?_, ?_, ?_, ?_, ?_, ?_, ?_, ?_⟩
  · intro k h1 h2 h3 h4
    show jlook _ k = jlook pfs k
    rw [jlook_setField_other _ _ _ _ h4, jlook_setField_other _ _ _ _ h3,
      jlook_setField_other _ _ _ _ h2, jlook_setField_other _ _ _ _ h1]
  · intro h
    rw [mq_pn, productNameOf]
    cases ha : member (.jobj pfs) "product_name" with
    | none => exact absurd h (by rw [ha]; simp [truthyO])
    | some v =>
      rw [ha] at h
      rw [jsOrO, if_pos h]
      rfl
  · intro h1 h2
    rw [mq_pn, productNameOf, jsOrO, if_neg (by rw [h1]; simp)]
    cases hb : member (.jobj pfs) "product_name_en" with
    | none => exact absurd h2 (by rw [hb]; simp [truthyO])
    | some v =>
      rw [hb] at h2
      rw [jsOrO, if_pos h2]
      rfl
  · intro h1 h2
    rw [mq_pn, productNameOf, jsOrO, if_neg (by rw [h1]; simp),
      jsOrO, if_neg (by rw [h2]; simp)]
    rfl
  · intro hsch
    rw [mq_hn]
    rcases hsch with hn | ⟨nfs, hn⟩
    · rw [hasNutritionFlag.eq_def, hn]
      simp [hn]
    · rw [hasNutritionFlag.eq_def, hn]
      dsimp only
      simp [hn, truthyV, objectKeysCount, List.length_pos]
  · intro hsch
    rw [mq_hi]
    rcases hsch with hn | ⟨s, hn⟩
    · rw [hasImageFlag, hn]
      simp [hn, truthyO]
    · rw [hasImageFlag, hn]
      simp [hn, truthyO, truthyV]
  · intro hsch
    rw [mq_ng]
    rw [nutritionGrade.eq_def] at hng
    rcases hsch with hn | hn | hn <;> rw [hn] at hng <;>
      simp only [] at hng <;>
      simp [tagIndexZero, gradeOfTagElem] at hng <;>
      rw [← hng]
  · intro t ts hn
    rw [mq_ng]
    rw [nutritionGrade.eq_def] at hng
    rw [hn] at hng
    dsimp only [tagIndexZero, List.head?, gradeOfTagElem] at hng
    rw [Option.some.injEq] at hng
    rw [← hng]

/-- Claim C6: a successful OFF search reserializes the upstream payload
with each product record enriched; every enriched record is a copy of
its source record extended with the resolved display name (localized
name, else English name, else `"Product " + code`), the two presence
flags, and the normalized first nutrition-grade tag (null when the tag
list is absent or empty). -/
theorem claim6_off_search_enrichment (req : Request) (status : Nat)
    (dfs : List (String × JVal)) (ps qs : List JVal)
    (hq : truthyStr (searchParamGet req.urlQuery "query") = true)
    (hok : statusOk status = true)
    (hprods : jlook dfs "products" = some (.jarr ps))
    (hmap : ps.mapM enrichProduct = some qs) :
    ((handleOFFSearch req (.resp status (.jobj dfs))).1 =
      { status := status,
        headers := hmerge
          [("Content-Type", "application/json"),
           ("Cache-Control", "s-maxage=300")],
        body := .jsonOf (.jobj (setField dfs "products" (.jarr qs))) })
    ∧
    (∀ (pfs : List (String × JVal)) (q : JVal),
      enrichProduct (.jobj pfs) = some q →
      (∀ k : String, k ≠ "product_name" → k ≠ "has_nutrition" →
          k ≠ "has_image" → k ≠ "nutrition_grade" →
          member q k = member (.jobj pfs) k)
      ∧
      (truthyO (member (.jobj pfs) "product_name") = true →
        member q "product_name" = member (.jobj pfs) "product_name")
      ∧
      (truthyO (member (.jobj pfs) "product_name") = false →
        truthyO (member (.jobj pfs) "product_name_en") = true →
        member q "product_name" = member (.jobj pfs) "product_name_en")
      ∧
      (truthyO (member (.jobj pfs) "product_name") = false →
        truthyO (member (.jobj pfs) "product_name_en") = false →
        member q "product_name" =
          some (.jstr ("Product " ++ jsToStrO (member (.jobj pfs) "code"))))
      ∧
      ((member (.jobj pfs) "nutriments" = none ∨
        (∃ nfs, member (.jobj pfs) "nutriments" = some (.jobj nfs))) →
        (member q "has_nutrition" = some (.jbool true) ↔
          ∃ nfs, member (.jobj pfs) "nutriments" = some (.jobj nfs) ∧ nfs ≠ []))
      ∧
      ((member (.jobj pfs) "image_url" = none ∨
        (∃ s, member (.jobj pfs) "image_url" = some (.jstr s))) →
        (member q "has_image" = some (.jbool true) ↔
          ∃ s, member (.jobj pfs) "image_url" = some (.jstr s) ∧ s ≠ ""))
      ∧
      ((member (.jobj pfs) "nutrition_grades_tags" = none ∨
        member (.jobj pfs) "nutrition_grades_tags" = some .jnull ∨
        member (.jobj pfs) "nutrition_grades_tags" = some (.jarr [])) →
        member q "nutrition_grade" = some .jnull)
      ∧
      (∀ (t : String) (ts : List JVal),
        member (.jobj pfs) "nutrition_grades_tags" =
          some (.jarr (.jstr t :: ts)) →
        member q "nutrition_grade" =
          some (if replaceFirst t "en:" "" = "" then .jnull
                else .jstr (replaceFirst t "en:" "")))) := by
  refine ⟨?_, fun pfs q henr => enrichProduct_fields pfs q henr⟩
  rw [handleOFFSearch]
  simp only [hq, Bool.not_true, Bool.false_eq_true, if_false, hok]
  rw [show dataProducts (.jobj dfs) = some (jlook dfs "products") from rfl,
    hprods]
  dsimp only
  rw [show mapProducts (some (.jarr ps)) = ps.mapM enrichProduct from rfl,
    hmap]
  rfl

/-- Witness for C6: one concrete milk product through a 200 search. -/
theorem claim6_off_search_enrichment_witness :
    truthyStr (searchParamGet [("query", "milk")] "query") = true ∧
    statusOk 200 = true ∧
    jlook [("count", JVal.jnum 1),
           ("products", JVal.jarr [JVal.jobj
             [("code", .jstr "123"), ("product_name", .jstr "Milk"),
              ("nutriments", .jobj [("salt_100g", .jnum 1)]),
              ("image_url", .jstr "http://img"),
              ("nutrition_grades_tags", .jarr [.jstr "en:a"])]])] "products" =
      some (.jarr [JVal.jobj
        [("code", .jstr "123"), ("product_name", .jstr "Milk"),
         ("nutriments", .jobj [("salt_100g", .jnum 1)]),
         ("image_url", .jstr "http://img"),
         ("nutrition_grades_tags", .jarr [.jstr "en:a"])]]) ∧
    [JVal.jobj
      [("code", .jstr "123"), ("product_name", .jstr "Milk"),
       ("nutriments", .jobj [("salt_100g", .jnum 1)]),
       ("image_url", .jstr "http://img"),
       ("nutrition_grades_tags", .jarr [.jstr "en:a"])]].mapM enrichProduct =
      some [JVal.jobj
        [("code", .jstr "123"), ("product_name", .jstr "Milk"),
         ("nutriments", .jobj [("salt_100g", .jnum 1)]),
         ("image_url", .jstr "http://img"),
         ("nutrition_grades_tags", .jarr [.jstr "en:a"]),
         ("has_nutrition", .jbool true), ("has_image", .jbool true),
         ("nutrition_grade", .jstr "a")]] ∧
    (handleOFFSearch
        { method := "GET", urlPath := "/off/search",
          urlQuery := [("query", "milk")], headers := [] }
        (.resp 200 (.jobj [("count", JVal.jnum 1),
           ("products", JVal.jarr [JVal.jobj
             [("code", .jstr "123"), ("product_name", .jstr "Milk"),
              ("nutriments", .jobj [("salt_100g", .jnum 1)]),
              ("image_url", .jstr "http://img"),
              ("nutrition_grades_tags", .jarr [.jstr "en:a"])]])]))).1 =
      { status := 200,
        headers := hmerge
          [("Content-Type", "application/json"),
           ("Cache-Control", "s-maxage=300")],
        body := .jsonOf (.jobj (setField
          [("count", JVal.jnum 1),
           ("products", JVal.jarr [JVal.jobj
             [("code", .jstr "123"), ("product_name", .jstr "Milk"),
              ("nutriments", .jobj [("salt_100g", .jnum 1)]),
              ("image_url", .jstr "http://img"),
              ("nutrition_grades_tags", .jarr [.jstr "en:a"])]])]
          "products"
          (.jarr [JVal.jobj
            [("code", .jstr "123"), ("product_name", .jstr "Milk"),
             ("nutriments", .jobj [("salt_100g", .jnum 1)]),
             ("image_url", .jstr "http://img"),
             ("nutrition_grades_tags", .jarr [.jstr "en:a"]),
             ("has_nutrition", .jbool true), ("has_image", .jbool true),
             ("nutrition_grade", .jstr "a")]]))) } :=
  ⟨by decide, by decide, rfl, rfl,
    (claim6_off_search_enrichment
      { method := "GET", urlPath := "/off/search",
        urlQuery := [("query", "milk")], headers := [] }
      200
      [("count", JVal.jnum 1),
       ("products", JVal.jarr [JVal.jobj
         [("code", .jstr "123"), ("product_name", .jstr "Milk"),
          ("nutriments", .jobj [("salt_100g", .jnum 1)]),
          ("image_url", .jstr "http://img"),
          ("nutrition_grades_tags", .jarr [.jstr "en:a"])]])]
      [JVal.jobj
        [("code", .jstr "123"), ("product_name", .jstr "Milk"),
         ("nutriments", .jobj [("salt_100g", .jnum 1)]),
         ("image_url", .jstr "http://img"),
         ("nutrition_grades_tags", .jarr [.jstr "en:a"])]]
      [JVal.jobj
        [("code", .jstr "123"), ("product_name", .jstr "Milk"),
         ("nutriments", .jobj [("salt_100g", .jnum 1)]),
         ("image_url", .jstr "http://img"),
         ("nutrition_grades_tags", .jarr [.jstr "en:a"]),
         ("has_nutrition", .jbool true), ("has_image", .jbool true),
         ("nutrition_grade", .jstr "a")]]
      (by decide) (by decide) rfl rfl).1⟩

/-! ## Response header discipline -/

/-- What actually holds of every non-preflight response: the 404 keeps
CORS and sets no explicit content type; the `json`-built errors and the
streamed/reserialized successes alike carry exactly one
`Content-Type: application/json` and none of the CORS headers (the
spread of the `Headers` instance in the success branches contributes
nothing). -/
def headerDiscipline (r : Response) : Prop :=
  (r.status = 404 →
    hasCorsB r.headers = true ∧ ctCount r.headers = 0 ∧
    ∃ s, r.body = Body.text s) ∧
  ((r.status = 400 ∨ r.status = 429 ∨ r.status = 500 ∨ r.status = 502) →
    ctCount r.headers = 1 ∧ jsonCTB r.headers = true ∧
    noCorsB r.headers = true) ∧
  (statusOk r.status = true →
    ctCount r.headers = 1 ∧ jsonCTB r.headers = true ∧
    noCorsB r.headers = true)

theorem hd_json_nil (x : JVal) (st : Nat)
    (h : st = 400 ∨ st = 500 ∨ st = 502) :
    headerDiscipline (json x st []) := by
  rcases h with rfl | rfl | rfl <;>
    exact ⟨fun hh => by simp [json] at hh,
      fun _ => ⟨rfl, rfl, rfl⟩,
      fun hh => by simp [json, statusOk] at hh⟩

theorem hd_json_ra (x : JVal) (v : String) :
    headerDiscipline (json x 429 [("Retry-After", v)]) :=
  ⟨fun hh => by simp [json] at hh,
   fun _ => ⟨rfl, rfl, rfl⟩,
   fun hh => by simp [json, statusOk] at hh⟩

theorem hd_stream (s : Nat) (hok : statusOk s = true) (b : Body)
    (cc : String) :
    headerDiscipline
      { status := s,
        headers := hmerge
          [("Content-Type", "application/json"), ("Cache-Control", cc)],
        body := b } := by
  have hs : 200 ≤ s ∧ s < 300 := by simpa [statusOk] using hok
  refine ⟨fun h => ?_, fun h => ?_, fun _ => ⟨rfl, rfl, rfl⟩⟩
  · dsimp only at h
    omega
  · dsimp only at h
    omega

theorem hd_notfound (msg : String) :
    headerDiscipline
      { status := 404, headers := corsHeaders, body := .text msg } := by
  refine ⟨fun _ => ⟨rfl, rfl, ⟨msg, rfl⟩⟩, fun h => ?_, fun h => ?_⟩
  · dsimp only at h
    omega
  · simp [statusOk] at h

theorem hd_handleOFFSearch (req : Request) (up : Upstream) :
    headerDiscipline (handleOFFSearch req up).1 := by
  rw [handleOFFSearch]
  dsimp only
  by_cases hq : truthyStr (searchParamGet req.urlQuery "query") = true
  · rw [if_neg (by simp [hq])]
    cases up with
    | thrown => exact hd_json_nil _ _ (Or.inr (Or.inl rfl))
    | resp status data =>
      dsimp only
      by_cases hok : statusOk status = true
      · rw [if_neg (by simp [hok])]
        cases hdp : dataProducts data with
        | none => exact hd_json_nil _ _ (Or.inr (Or.inl rfl))
        | some pv =>
          dsimp only
          cases hmp : mapProducts pv with
          | none => exact hd_json_nil _ _ (Or.inr (Or.inl rfl))
          | some products =>
            dsimp only
            exact hd_stream status hok _ _
      · rw [if_pos (by simp [hok])]
        exact hd_json_nil _ _ (Or.inr (Or.inr rfl))
  · rw [if_pos (by simp [hq])]
    exact hd_json_nil _ _ (Or.inl rfl)

theorem hd_handleOFFProduct (req : Request) (code : Option String)
    (up : Upstream) :
    headerDiscipline (handleOFFProduct req code up).1 := by
  rw [handleOFFProduct]
  dsimp only
  generalize (if truthyStr code = true then code
      else searchParamGet req.urlQuery "code") = pc
  by_cases hc : truthyStr pc = true
  · rw [if_neg (by simp [hc])]
    cases up with
    | thrown => exact hd_json_nil _ _ (Or.inr (Or.inl rfl))
    | resp status data =>
      dsimp only
      by_cases hok : statusOk status = true
      · rw [if_neg (by simp [hok])]
        exact hd_stream status hok _ _
      · rw [if_pos (by simp [hok])]
        exact hd_json_nil _ _ (Or.inr (Or.inr rfl))
  · rw [if_pos (by simp [hc])]
    exact hd_json_nil _ _ (Or.inl rfl)

theorem hd_handleUSDA (req : Request) (rate : Option KV) (now : Nat)
    (up : Upstream) (hm : ¬ req.method = "OPTIONS") :
    headerDiscipline (handleUSDA req rate now up).response := by
  rw [handleUSDA, if_neg hm]
  dsimp only
  by_cases hg : (rateGate req.headers rate 10 60 now).1.allowed = true
  · rw [if_neg (by simp [hg])]
    by_cases hend : (pathSegments req.urlPath).get? 2 = some "search"
    · rw [if_neg (show ¬((pathSegments req.urlPath).get? 2 ≠ some "search")
        from fun hne => hne hend)]
      by_cases hq : truthyStr (searchParamGet req.urlQuery "query") = true
      · rw [if_neg (by simp [hq])]
        cases up with
        | thrown => exact hd_json_nil _ _ (Or.inr (Or.inl rfl))
        | resp status data =>
          dsimp only
          by_cases hok : statusOk status = true
          · rw [if_neg (by simp [hok])]
            exact hd_stream status hok _ _
          · rw [if_pos (by simp [hok])]
            exact hd_json_nil _ _ (Or.inr (Or.inr rfl))
      · rw [if_pos (by simp [hq])]
        exact hd_json_nil _ _ (Or.inl rfl)
    · rw [if_pos hend]
      exact hd_json_nil _ _ (Or.inl rfl)
  · rw [if_pos (by simp [hg])]
    exact hd_json_ra _ _

theorem hd_handleOFF (req : Request) (rate : Option KV) (now : Nat)
    (up : Upstream) (hm : ¬ req.method = "OPTIONS") :
    headerDiscipline (handleOFF req rate now up).response := by
  rw [handleOFF, if_neg hm]
  dsimp only
  by_cases hg : (rateGate req.headers rate 6 60 now).1.allowed = true
  · rw [if_neg (by simp [hg])]
    by_cases hs : (pathSegments req.urlPath).get? 2 = some "search"
    · rw [if_pos hs]
      exact hd_handleOFFSearch req up
    · rw [if_neg hs]
      by_cases hp : (pathSegments req.urlPath).get? 2 = some "product"
      · rw [if_pos hp]
        exact hd_handleOFFProduct req _ up
      · rw [if_neg hp]
        exact hd_json_nil _ _ (Or.inl rfl)
  · rw [if_pos (by simp [hg])]
    exact hd_json_ra _ _

/-- Counterexample to C1 as stated: the 400 validation error for
`/usda/search` without a query is emitted with a lone
`Content-Type: application/json` header and carries none of the CORS
headers. -/
theorem claim1_counterexample :
    (workerFetch
        { method := "GET", urlPath := "/usda/search",
          urlQuery := [], headers := [] }
        none 0 .thrown).response.status = 400 ∧
    hasCorsB (workerFetch
        { method := "GET", urlPath := "/usda/search",
          urlQuery := [], headers := [] }
        none 0 .thrown).response.headers = false ∧
    (workerFetch
        { method := "GET", urlPath := "/usda/search",
          urlQuery := [], headers := [] }
        none 0 .thrown).response.headers =
      [("Content-Type", "application/json")] :=
  ⟨rfl, rfl, rfl⟩

/-- Claim C1 (amended): every non-preflight response the core emits
satisfies the header discipline — the catch-all 404 carries the CORS
header set with a plain-text body and no explicit `Content-Type`; every
other response (success as much as the 400/429/500/502 errors) carries
exactly one `Content-Type: application/json` and none of the CORS
headers, the errors because the `json` envelope never attaches them and
the successes because the spread of the `Headers` instance contributes
no entries. -/
theorem claim1_response_headers (req : Request) (rate : Option KV)
    (now : Nat) (up : Upstream) (hm : ¬ req.method = "OPTIONS") :
    headerDiscipline (workerFetch req rate now up).response := by
  rw [workerFetch]
  by_cases hu : strStarts req.urlPath "/usda/" = true
  · rw [if_pos hu]
    exact hd_handleUSDA req rate now up hm
  · rw [if_neg hu]
    by_cases ho : strStarts req.urlPath "/off/" = true
    · rw [if_pos ho]
      exact hd_handleOFF req rate now up hm
    · rw [if_neg ho]
      by_cases hr : ((decide (req.urlPath = "/") ||
          strStarts req.urlPath "/?") &&
          truthyStr (searchParamGet req.urlQuery "query")) = true
      · rw [if_pos hr]
        exact hd_handleUSDA _ rate now up hm
      · rw [if_neg hr]
        exact hd_notfound _

/-- Witness for the amended C1 on a plain GET request. -/
theorem claim1_response_headers_witness :
    (¬ ("GET" : String) = "OPTIONS") ∧
    headerDiscipline (workerFetch
      { method := "GET", urlPath := "/off/search",
        urlQuery := [("query", "milk")], headers := [] }
      none 0 (.resp 200 (.jobj [("products", .jarr [])]))).response :=
  ⟨by decide,
    claim1_response_headers
      { method := "GET", urlPath := "/off/search",
        urlQuery := [("query", "milk")], headers := [] }
      none 0 (.resp 200 (.jobj [("products", .jarr [])])) (by decide)⟩
